import Mathlib

/-!
Verification of the HostingDE DynDNS server (`dyndns.py`).

The embedding models the two components of the program:

* `HostingDEDNSAPIClient` — `api_request`, `get_resource_record_id`,
  `update_resource_record`.  HTTP traffic is modelled by a function
  `send : String → JSON → HttpResponse` mapping an endpoint name and a
  request payload to the upstream response; every client operation also
  returns the list of requests it issued, so that "no provider call was
  made" is expressible.
* `Root` — the constructor check on `allowed_domains` and the `dyndns`
  request handler.

Python dynamic values are modelled by the `JSON` inductive; Python
truthiness, `len`, indexing, `in`, `==` and `str()` are each given an
explicit counterpart.  An operation that would raise an uncaught Python
exception (`KeyError`, `TypeError`, ...) is modelled by a distinguished
`crash` outcome, kept separate from `DNSAPIException` results, which the
program raises and catches deliberately.
-/

/-- A JSON value as produced by `response.json()` in the Python source.
Numbers are restricted to integers: every number the program manipulates
(HTTP status codes, provider error codes, TTLs) is integral. -/
inductive JSON where
  | null
  | bool (b : Bool)
  | num (n : Int)
  | str (s : String)
  | arr (elems : List JSON)
  | obj (fields : List (String × JSON))

/-- First binding of `key` in an association list of object fields. -/
def JSON.lookup (fields : List (String × JSON)) (key : String) : Option JSON :=
  match fields.find? (fun p => p.1 == key) with
  | some p => some p.2
  | none => none

/-- Python truthiness (`bool(x)`) of a JSON value. -/
def JSON.truthy : JSON → Bool
  | .null => false
  | .bool b => b
  | .num n => n != 0
  | .str s => !s.isEmpty
  | .arr xs => !xs.isEmpty
  | .obj fs => !fs.isEmpty

/-- Python truthiness of a `dict.get` result (`None` when the key is absent). -/
def pyTruthyOpt (o : Option JSON) : Bool :=
  match o with
  | some j => j.truthy
  | none => false

/-- Python `len(x)`: defined for lists, strings and dicts; `none` models the
`TypeError` raised on other values. -/
def pyLen : JSON → Option Nat
  | .arr xs => some xs.length
  | .str s => some s.length
  | .obj fs => some fs.length
  | _ => none

/-- Python `x[0]`: the first element of a list, the first character of a
string; `none` models `IndexError` on empty sequences and the
`KeyError`/`TypeError` raised on dicts (whose keys here are strings) and
scalars. -/
def pyIndex0 : JSON → Option JSON
  | .arr (x :: _) => some x
  | .str s => if s.isEmpty then none else some (.str (s.take 1))
  | _ => none

/-- Python `x[key]` for a string `key`: a dict lookup; `none` models the
`KeyError` on a missing key and the `TypeError` on non-dict values. -/
def jsonSubscript : JSON → String → Option JSON
  | .obj fs, k => JSON.lookup fs k
  | _, _ => none

/-- Substring containment, as Python `needle in haystack` on strings. -/
def strContains (haystack needle : String) : Bool :=
  (List.range (haystack.length + 1)).any fun i =>
    needle.isPrefixOf (haystack.drop i)

/-- Python `==` on JSON values: `True == 1`, lists compare elementwise,
and dicts compare as CPython compares them: equal sizes and every binding
of the left dict matched by an equal binding in the right (keys of a
Python dict are unique, so this is full dict equality). -/
def pyEq : JSON → JSON → Bool
  | .null, .null => true
  | .bool a, .bool b => a == b
  | .bool a, .num n => (if a then (1 : Int) else 0) == n
  | .num n, .bool b => n == (if b then (1 : Int) else 0)
  | .num a, .num b => a == b
  | .str a, .str b => a == b
  | .arr a, .arr b => goList a b
  | .obj a, .obj b => a.length == b.length && goObj a b
  | _, _ => false
where
  /-- Elementwise Python `==` on lists. -/
  goList : List JSON → List JSON → Bool
    | [], [] => true
    | x :: xs, y :: ys => pyEq x y && goList xs ys
    | _, _ => false
  /-- Every binding of the first field list is matched by an equal binding
  in the second. -/
  goObj : List (String × JSON) → List (String × JSON) → Bool
    | [], _ => true
    | (k, v) :: rest, other =>
      (match other.find? (fun p => p.1 == k) with
       | some p => pyEq v p.2
       | none => false) && goObj rest other

/-- Python `key in x` for a string `key`: key membership for dicts, element
membership for lists, substring test for strings; `none` models the
`TypeError` on scalars. -/
def pyInStr (key : String) : JSON → Option Bool
  | .obj fs => some (JSON.lookup fs key).isSome
  | .arr xs => some (xs.any fun x => pyEq (.str key) x)
  | .str s => some (strContains s key)
  | _ => none

mutual

/-- Python `str(x)` of a JSON value, as interpolated by an f-string. -/
def pyStr : JSON → String
  | .null => "None"
  | .bool true => "True"
  | .bool false => "False"
  | .num n => toString n
  | .str s => s
  | .arr xs => "[" ++ String.intercalate ", " (pyReprList xs) ++ "]"
  | .obj fs => "\x7b" ++ String.intercalate ", " (pyReprObj fs) ++ "\x7d"

/-- Python `repr(x)`, used by `str` on the elements of containers. -/
def pyRepr : JSON → String
  | .null => "None"
  | .bool true => "True"
  | .bool false => "False"
  | .num n => toString n
  | .str s => "\x27" ++ s ++ "\x27"
  | .arr xs => "[" ++ String.intercalate ", " (pyReprList xs) ++ "]"
  | .obj fs => "\x7b" ++ String.intercalate ", " (pyReprObj fs) ++ "\x7d"

/-- Python repr of each element of a list. -/
def pyReprList : List JSON → List String
  | [] => []
  | x :: xs => pyRepr x :: pyReprList xs

/-- Python repr of each binding of a dict. -/
def pyReprObj : List (String × JSON) → List String
  | [] => []
  | (k, v) :: fs => ("\x27" ++ k ++ "\x27: " ++ pyRepr v) :: pyReprObj fs

end

/-! ## The DNS API client (`HostingDEDNSAPIClient`) -/

/-- The exception type `DNSAPIException(error_code, error_data)` of the
source.  Python never constrains the constructor arguments, so both fields
are arbitrary JSON values; the raise sites of the program use an integer
code and a string or parsed-JSON detail. -/
structure DNSAPIException where
  error_code : JSON
  error_data : JSON

/-- The method `DNSAPIException.__str__`: the f-string interpolation
of the code, a separating dash, and the detail. -/
def DNSAPIException.toStr (e : DNSAPIException) : String :=
  pyStr e.error_code ++ " - " ++ pyStr e.error_data

/-- Result of running a piece of client code: a returned value, a raised
`DNSAPIException`, or `crash` for an uncaught Python exception
(`KeyError`, `TypeError`, `ValueError`, `AttributeError`). -/
inductive Outcome (α : Type) where
  | ok (val : α)
  | err (e : DNSAPIException)
  | crash

/-- An upstream HTTP response as seen through the `requests` library:
`status_code`, the result of `response.json()` (`none` when the body is
not valid JSON, in which case `.json()` raises `ValueError`), and the
decoded raw body `response.content.decode("utf-8")`. -/
structure HttpResponse where
  status_code : Nat
  jsonBody : Option JSON
  content : String

/-- The transport layer: an endpoint name and a JSON payload determine the
upstream response (`requests.post(f"{base_url}/{endpoint}", json=payload)`). -/
abbrev Transport := String → JSON → HttpResponse

/-- The non-200 branch of `api_request`: `response.json()` if the body
parses, otherwise the decoded raw text (the `try`/`except ValueError`). -/
def errorTextOf (response : HttpResponse) : JSON :=
  match response.jsonBody with
  | some j => j
  | none => .str response.content

/-- The part of `api_request` that follows `requests.post`: the two-tier
check on one `HttpResponse` (lines 29–51 of `dyndns.py`). -/
def handle_api_response (response : HttpResponse) : Outcome JSON :=
  if response.status_code ≠ 200 then
    .err ⟨.num (response.status_code : Int), errorTextOf response⟩
  else
    match response.jsonBody with
    | none => .crash
    | some json_data =>
      match pyInStr "errors" json_data with
      | none => .crash
      | some hasKey =>
        if hasKey then
          match jsonSubscript json_data "errors" with
          | none => .crash
          | some errorsJ =>
            match pyLen errorsJ with
            | none => .crash
            | some 0 =>
              match jsonSubscript json_data "response" with
              | none => .crash
              | some payload => .ok payload
            | some (_ + 1) =>
              match pyIndex0 errorsJ with
              | none => .crash
              | some error_data =>
                match error_data with
                | .obj efs =>
                  match JSON.lookup efs "text" with
                  | none => .crash
                  | some textJ =>
                    let error_text : JSON :=
                      match JSON.lookup efs "value" with
                      | some v =>
                        if v.truthy then
                          .str (pyStr v ++ " - " ++ pyStr textJ)
                        else textJ
                      | none => textJ
                    match JSON.lookup efs "code" with
                    | none => .crash
                    | some codeJ => .err ⟨codeJ, error_text⟩
                | _ => .crash
        else
          match jsonSubscript json_data "response" with
          | none => .crash
          | some payload => .ok payload

/-- A provider API request as issued by `api_request`: endpoint and payload. -/
abbrev ApiCall := String × JSON

/-- The method `HostingDEDNSAPIClient.api_request`: posts the payload to the endpoint
and applies the two-tier response check; also reports the request it issued. -/
def api_request (send : Transport) (endpoint : String) (payload : JSON) :
    Outcome JSON × List ApiCall :=
  (handle_api_response (send endpoint payload), [(endpoint, payload)])

/-- The configuration the client reads in its constructor:
`config["zone"]`, `config["token"]`, `config["default_ttl"]`. -/
structure ClientConfig where
  zone : String
  token : String
  default_ttl : Int

/-- The `recordsFind` payload built by `get_resource_record_id`. -/
def recordsFindPayload (token record_name record_type : String) : JSON :=
  .obj [
    ("authToken", .str token),
    ("filter", .obj [
      ("subFilterConnective", .str "AND"),
      ("subFilter", .arr [
        .obj [("field", .str "RecordName"), ("value", .str record_name)],
        .obj [("field", .str "RecordType"), ("value", .str record_type)]])])]

/-- The method `HostingDEDNSAPIClient.get_resource_record_id`: searches for the
record and demands exactly one match carrying a truthy `id`. -/
def get_resource_record_id (send : Transport) (cfg : ClientConfig)
    (record_name record_type : String) : Outcome JSON × List ApiCall :=
  let (r, trace) :=
    api_request send "recordsFind" (recordsFindPayload cfg.token record_name record_type)
  match r with
  | .crash => (.crash, trace)
  | .err e => (.err e, trace)
  | .ok result =>
    match jsonSubscript result "data" with
    | none => (.crash, trace)
    | some dataJ =>
      match pyLen dataJ with
      | none => (.crash, trace)
      | some 0 => (.err ⟨.num 404, .str "No matching record found."⟩, trace)
      | some (n + 1) =>
        if n + 1 > 1 then
          (.err ⟨.num 400, .str "More than one matching record found, cannot continue."⟩, trace)
        else
          match pyIndex0 dataJ with
          | none => (.crash, trace)
          | some first =>
            match first with
            | .obj ffs =>
              if !pyTruthyOpt (JSON.lookup ffs "id") then
                (.err ⟨.num 404, .str "Could not find ID for record in response."⟩, trace)
              else
                match JSON.lookup ffs "id" with
                | some idJ => (.ok idJ, trace)
                | none => (.crash, trace)
            | _ => (.crash, trace)

/-- The TTL expression of the update payload (line 98 of `dyndns.py`):
`record_ttl if record_ttl and record_ttl >= 60 else self.default_ttl`. -/
def effective_ttl (record_ttl : Option Int) (default_ttl : Int) : Int :=
  match record_ttl with
  | some t => if t ≠ 0 ∧ 60 ≤ t then t else default_ttl
  | none => default_ttl

/-- The `recordsUpdate` payload built by `update_resource_record`. -/
def recordsUpdatePayload (cfg : ClientConfig) (record_id : JSON)
    (record_name record_type record_data : String) (record_ttl : Option Int) : JSON :=
  .obj [
    ("authToken", .str cfg.token),
    ("zoneName", .str cfg.zone),
    ("recordsToModify", .arr [
      .obj [
        ("id", record_id),
        ("name", .str record_name),
        ("type", .str record_type),
        ("content", .str record_data),
        ("comments", .str "DynDNS Record - automatically managed, do not change!"),
        ("ttl", .num (effective_ttl record_ttl cfg.default_ttl))]])]

/-- The filter of `update_resource_record`:
`list(filter(lambda entry: entry.get("id") == record_id, ...))`.
`none` models the `AttributeError` raised when an entry is not a dict. -/
def filterById : List JSON → JSON → Option (List JSON)
  | [], _ => some []
  | e :: rest, rid =>
    match e with
    | .obj efs =>
      match filterById rest rid with
      | none => none
      | some tail =>
        if pyEq ((JSON.lookup efs "id").getD .null) rid then some (e :: tail)
        else some tail
    | _ => none

/-- The method `HostingDEDNSAPIClient.update_resource_record`: resolves the record id,
sends the update, and demands that exactly one record of the response
carries the updated id. -/
def update_resource_record (send : Transport) (cfg : ClientConfig)
    (record_name record_type record_data : String) (record_ttl : Option Int) :
    Outcome JSON × List ApiCall :=
  let (ridR, trace1) := get_resource_record_id send cfg record_name record_type
  match ridR with
  | .crash => (.crash, trace1)
  | .err e => (.err e, trace1)
  | .ok record_id =>
    let payload := recordsUpdatePayload cfg record_id record_name record_type record_data record_ttl
    let (r2, trace2) := api_request send "recordsUpdate" payload
    let trace := trace1 ++ trace2
    match r2 with
    | .crash => (.crash, trace)
    | .err e => (.err e, trace)
    | .ok result =>
      match result with
      | .obj rfs =>
        let records := (JSON.lookup rfs "records").getD (.arr [])
        match records with
        | .arr entries =>
          match filterById entries record_id with
          | none => (.crash, trace)
          | some [] =>
            (.err ⟨.num 500,
              .str "Update succeeded, but failed to find updated record in success response. This should not happen."⟩,
             trace)
          | some [x] => (.ok x, trace)
          | some (_ :: _ :: _) =>
            (.err ⟨.num 500,
              .str "Update succeeded, but found more than one result in success response. This should not happen."⟩,
             trace)
        | .str s =>
          match filterById (s.toList.map fun c => .str (String.singleton c)) record_id with
          | none => (.crash, trace)
          | some [] =>
            (.err ⟨.num 500,
              .str "Update succeeded, but failed to find updated record in success response. This should not happen."⟩,
             trace)
          | some [x] => (.ok x, trace)
          | some (_ :: _ :: _) =>
            (.err ⟨.num 500,
              .str "Update succeeded, but found more than one result in success response. This should not happen."⟩,
             trace)
        | .obj kfs =>
          match filterById (kfs.map fun p => .str p.1) record_id with
          | none => (.crash, trace)
          | some [] =>
            (.err ⟨.num 500,
              .str "Update succeeded, but failed to find updated record in success response. This should not happen."⟩,
             trace)
          | some [x] => (.ok x, trace)
          | some (_ :: _ :: _) =>
            (.err ⟨.num 500,
              .str "Update succeeded, but found more than one result in success response. This should not happen."⟩,
             trace)
        | _ => (.crash, trace)
      | _ => (.crash, trace)

/-! ## The request handler (`Root`) -/

/-- A Python value that may be configured as `allowed_domains`.  The
constructor parameter carries the hint `typing.Union[bool, list]`, which
Python does not enforce, so strings, ints and `None` are also possible
configuration shapes. -/
inductive PyValue where
  | vBool (b : Bool)
  | vList (xs : List String)
  | vStr (s : String)
  | vInt (n : Int)
  | vNone

/-- Python truthiness of an `allowed_domains` value. -/
def PyValue.truthy : PyValue → Bool
  | .vBool b => b
  | .vList xs => !xs.isEmpty
  | .vStr s => !s.isEmpty
  | .vInt n => n != 0
  | .vNone => false

/-- Python `isinstance(x, list)`. -/
def PyValue.isList : PyValue → Bool
  | .vList _ => true
  | _ => false

/-- Python `domain in allowed_domains`: list membership, or substring test
on a string; `none` models the `TypeError` raised on bools, ints, `None`. -/
def PyValue.containsDomain : PyValue → String → Option Bool
  | .vList xs, d => some (xs.contains d)
  | .vStr s, d => some (strContains s d)
  | _, _ => none

/-- The constructor of `Root`: rejects a truthy non-list `allowed_domains` with a
`ValueError`, and stores the value otherwise. -/
def rootInit (allowed_domains : PyValue) : Except String PyValue :=
  if allowed_domains.truthy && !allowed_domains.isList then
    .error "allowed_domains has to be a list or False to allow all domains."
  else
    .ok allowed_domains

/-- Python truthiness of an optional string parameter (`None` and `""` are
falsy). -/
def pyTruthyStrOpt : Option String → Bool
  | none => false
  | some s => !s.isEmpty

/-- The result of handling one request: a response status and plain-text
body together with the provider API calls issued while handling it, or
`crash` when an uncaught Python exception escapes to the framework. -/
inductive HandlerResult where
  | resp (status : Nat) (body : String) (trace : List ApiCall)
  | crash (trace : List ApiCall)

/-- The response status of a handler result, when one was produced. -/
def HandlerResult.statusOf : HandlerResult → Option Nat
  | .resp s _ _ => some s
  | .crash _ => none

/-- The response body of a handler result, when one was produced. -/
def HandlerResult.bodyOf : HandlerResult → Option String
  | .resp _ b _ => some b
  | .crash _ => none

/-- The provider API calls issued while handling the request. -/
def HandlerResult.traceOf : HandlerResult → List ApiCall
  | .resp _ _ t => t
  | .crash t => t

/-- The inner `update_wrapper` of `Root.dyndns` for one address family:
runs `update_resource_record`, and on success reads `name`, `content`,
`ttl` and `lastChangeDate` from the returned record (the log line and the
result line interpolate them) and yields the success line; on
`DNSAPIException` yields the failure line and the flag that sets the
response status to 400.  `none` stands for an uncaught exception. -/
def update_wrapper (send : Transport) (cfg : ClientConfig) (domain : String)
    (record_type : String) (record_data : String) (ttl : Option Int) :
    Option (String × Bool) × List ApiCall :=
  let (r, trace) := update_resource_record send cfg domain record_type record_data ttl
  match r with
  | .ok result =>
    match jsonSubscript result "name", jsonSubscript result "content",
          jsonSubscript result "ttl", jsonSubscript result "lastChangeDate" with
    | some nameJ, some contentJ, some _, some _ =>
      (some ("Successfully updated " ++ record_type ++ " record for "
               ++ pyStr nameJ ++ " to " ++ pyStr contentJ, false), trace)
    | _, _, _, _ => (none, trace)
  | .err e =>
    (some ("Failed to update " ++ record_type ++ " record: " ++ e.toStr, true), trace)
  | .crash => (none, trace)

/-- The per-family stage of `Root.dyndns` (lines 161–168): run the wrapper
for `A` when `ipv4` is truthy and then for `AAAA` when `ipv6` is truthy,
join the result lines with a newline, and answer 400 when any family
failed, 200 otherwise.  A crash in the `A` family aborts the request before
the `AAAA` family runs. -/
def runFamilies (send : Transport) (cfg : ClientConfig) (domain : String)
    (ipv4 ipv6 : Option String) (ttl : Option Int) : HandlerResult :=
  if pyTruthyStrOpt ipv4 then
    match update_wrapper send cfg domain "A" (ipv4.getD "") ttl with
    | (none, t1) => .crash t1
    | (some (l1, f1), t1) =>
      if pyTruthyStrOpt ipv6 then
        match update_wrapper send cfg domain "AAAA" (ipv6.getD "") ttl with
        | (none, t2) => .crash (t1 ++ t2)
        | (some (l2, f2), t2) =>
          .resp (if f1 || f2 then 400 else 200) (l1 ++ "\n" ++ l2) (t1 ++ t2)
      else
        .resp (if f1 then 400 else 200) l1 t1
  else
    if pyTruthyStrOpt ipv6 then
      match update_wrapper send cfg domain "AAAA" (ipv6.getD "") ttl with
      | (none, t2) => .crash t2
      | (some (l2, f2), t2) => .resp (if f2 then 400 else 200) l2 t2
    else
      .resp 200 "" []

/-- The handler `Root.dyndns`: the full request handler.  `allowed_domains` is the
value stored by the constructor; `domain`, `ipv4`, `ipv6`, `ttl` are the
query parameters after the framework cast. -/
def dyndns (allowed_domains : PyValue) (send : Transport) (cfg : ClientConfig)
    (domain ipv4 ipv6 : Option String) (ttl : Option Int) : HandlerResult :=
  if !pyTruthyStrOpt domain then
    .resp 400 "DynDNS target domain missing." []
  else
    let d := domain.getD ""
    if allowed_domains.truthy then
      match allowed_domains.containsDomain d with
      | none => .crash []
      | some false => .resp 403 "Requested DynDNS domain ist not on the allowlist." []
      | some true =>
        if !pyTruthyStrOpt ipv4 && !pyTruthyStrOpt ipv6 then
          .resp 400 "Neither a v4 nor a v6 address given." []
        else
          runFamilies send cfg d ipv4 ipv6 ttl
    else
      if !pyTruthyStrOpt ipv4 && !pyTruthyStrOpt ipv6 then
        .resp 400 "Neither a v4 nor a v6 address given." []
      else
        runFamilies send cfg d ipv4 ipv6 ttl

/-! ## Concrete fixtures used by counterexamples and witnesses -/

/-- A sample client configuration. -/
def cfg0 : ClientConfig := ⟨"example.zone", "tok", 300⟩

/-- A 200 response whose body is the given JSON value. -/
def okResponse (j : JSON) : HttpResponse := ⟨200, some j, ""⟩

/-- A transport whose search result contains no matching record. -/
def sendFindEmpty : Transport := fun _ _ =>
  okResponse (.obj [("response", .obj [("data", .arr [])])])

/-- A transport finding exactly one record (id `rid1`) whose update
response contains an empty `records` list. -/
def sendUpdateEmpty : Transport := fun endpoint _ =>
  if endpoint = "recordsFind" then
    okResponse (.obj [("response", .obj [("data", .arr [.obj [("id", .str "rid1")]])])])
  else
    okResponse (.obj [("response", .obj [("records", .arr [])])])

/-- The record type requested by a `recordsFind` payload, used by the
scenario transport to distinguish the `A` and `AAAA` lookups. -/
def findPayloadType (payload : JSON) : Option JSON :=
  match jsonSubscript payload "filter" with
  | some f =>
    match jsonSubscript f "subFilter" with
    | some (.arr [_, tf]) => jsonSubscript tf "value"
    | _ => none
  | none => none

/-- The record type of a `recordsUpdate` payload. -/
def updatePayloadType (payload : JSON) : Option JSON :=
  match jsonSubscript payload "recordsToModify" with
  | some (.arr [r]) => jsonSubscript r "type"
  | _ => none

/-- The transport of the mixed-outcome scenario: both lookups succeed with
one match, the `A` update succeeds, and the `AAAA` update returns a 200
response embedding the provider error `500` / `internal error`. -/
def scenarioSend : Transport := fun endpoint payload =>
  if endpoint = "recordsFind" then
    match findPayloadType payload with
    | some (.str "A") =>
      okResponse (.obj [("response", .obj [("data", .arr [.obj [("id", .str "idA")]])])])
    | some (.str "AAAA") =>
      okResponse (.obj [("response", .obj [("data", .arr [.obj [("id", .str "idB")]])])])
    | _ => okResponse .null
  else if endpoint = "recordsUpdate" then
    match updatePayloadType payload with
    | some (.str "A") =>
      okResponse (.obj [("response", .obj [("records", .arr [
        .obj [("id", .str "idA"), ("name", .str "home.example.com"),
              ("content", .str "203.0.113.5"), ("ttl", .num 300),
              ("lastChangeDate", .str "2026-01-01T00:00:00Z")]])])])
    | some (.str "AAAA") =>
      okResponse (.obj [("errors", .arr [
        .obj [("code", .num 500), ("text", .str "internal error")]])])
    | _ => okResponse .null
  else okResponse .null

/-! ## Claims about the client -/

/-- C1: every provider API call is decided by a two-tier check.  Tier one:
a non-200 HTTP status fails with the HTTP status as code and the body
parsed as JSON — or the raw body text when parsing fails — as detail.
Tier two: a 200 response with a non-empty embedded `errors` list fails
with the `code` field of the first entry as code, and with message
`"{value} - {text}"` when the entry carries a truthy `value` field and
just the raw `text` value otherwise.  Only a 200 response without embedded
errors succeeds, unwrapping the `response` payload. -/
theorem c1_api_request_two_tier_check :
    (∀ response : HttpResponse, response.status_code ≠ 200 →
       handle_api_response response
         = .err ⟨.num (response.status_code : Int), errorTextOf response⟩)
  ∧ (∀ (response : HttpResponse) (fs e0fs : List (String × JSON))
       (rest : List JSON) (textJ codeJ : JSON),
       response.status_code = 200 →
       response.jsonBody = some (.obj fs) →
       JSON.lookup fs "errors" = some (.arr (.obj e0fs :: rest)) →
       JSON.lookup e0fs "text" = some textJ →
       JSON.lookup e0fs "code" = some codeJ →
         (pyTruthyOpt (JSON.lookup e0fs "value") = false →
            handle_api_response response = .err ⟨codeJ, textJ⟩)
       ∧ (∀ vJ, JSON.lookup e0fs "value" = some vJ → vJ.truthy = true →
            handle_api_response response
              = .err ⟨codeJ, .str (pyStr vJ ++ " - " ++ pyStr textJ)⟩))
  ∧ (∀ (response : HttpResponse) (fs : List (String × JSON)) (payload : JSON),
       response.status_code = 200 →
       response.jsonBody = some (.obj fs) →
       (JSON.lookup fs "errors" = none ∨ JSON.lookup fs "errors" = some (.arr [])) →
       JSON.lookup fs "response" = some payload →
       handle_api_response response = .ok payload) := by
  refine ⟨?_, ?_, ?_⟩
  · intro response h
    simp [handle_api_response, h]
  · intro response fs e0fs rest textJ codeJ h200 hbody herrs htext hcode
    constructor
    · intro hval
      simp only [handle_api_response, h200, hbody]
      simp only [pyInStr, jsonSubscript, herrs, Option.isSome_some, if_true, pyLen,
        List.length_cons, pyIndex0, htext, hcode]
      cases hv : JSON.lookup e0fs "value" with
      | none => simp
      | some vJ =>
        rw [hv] at hval
        simp only [pyTruthyOpt] at hval
        simp [hval]
    · intro vJ hv hvt
      simp only [handle_api_response, h200, hbody]
      simp only [pyInStr, jsonSubscript, herrs, Option.isSome_some, if_true, pyLen,
        List.length_cons, pyIndex0, htext, hcode, hv]
      simp [hvt]
  · intro response fs payload h200 hbody herrs hresp
    rcases herrs with h | h <;>
      simp [handle_api_response, h200, hbody, pyInStr, jsonSubscript, h, pyLen, hresp]

/-- C1 witness: the three tiers at concrete responses — a 500 transport
failure with unparseable body, a 200 response embedding error 10 with a
truthy `value`, and a clean 200 response. -/
theorem c1_api_request_two_tier_check_witness :
    handle_api_response ⟨500, none, "boom"⟩ = .err ⟨.num 500, .str "boom"⟩
  ∧ handle_api_response (okResponse (.obj [("errors", .arr [.obj
      [("code", .num 10), ("text", .str "t"), ("value", .str "v")]])]))
      = .err ⟨.num 10, .str "v - t"⟩
  ∧ handle_api_response (okResponse (.obj [("response", .str "payload")]))
      = .ok (.str "payload") := by
  refine ⟨?_, ?_, ?_⟩
  · exact c1_api_request_two_tier_check.1 ⟨500, none, "boom"⟩ (by decide)
  · exact (c1_api_request_two_tier_check.2.1 (okResponse (.obj [("errors", .arr [.obj
      [("code", .num 10), ("text", .str "t"), ("value", .str "v")]])]))
      [("errors", .arr [.obj [("code", .num 10), ("text", .str "t"), ("value", .str "v")]])]
      [("code", .num 10), ("text", .str "t"), ("value", .str "v")]
      [] (.str "t") (.num 10) rfl rfl rfl rfl rfl).2 (.str "v") rfl rfl
  · exact c1_api_request_two_tier_check.2.2 (okResponse (.obj [("response", .str "payload")]))
      [("response", .str "payload")] (.str "payload") rfl rfl (Or.inl rfl) rfl

/-- C2 counterexample: at a transport whose record search returns zero
matches, the lookup fails with code 404, but its message is
`"No matching record found."` (with a trailing period), not the exact
message `"No matching record found"` stated by the claim. -/
theorem c2_lookup_messages_counterexample :
    (get_resource_record_id sendFindEmpty cfg0 "host.example" "A").1
      = .err ⟨.num 404, .str "No matching record found."⟩
  ∧ (get_resource_record_id sendFindEmpty cfg0 "host.example" "A").1
      ≠ .err ⟨.num 404, .str "No matching record found"⟩ := by
  constructor
  · rfl
  · intro h
    rw [show (get_resource_record_id sendFindEmpty cfg0 "host.example" "A").1
          = .err ⟨.num 404, .str "No matching record found."⟩ from rfl] at h
    injection h with h1
    rw [DNSAPIException.mk.injEq] at h1
    injection h1.2 with h2
    exact absurd h2 (by decide)

/-- C2 (amended): for every record lookup by (name, type), with the
provider search succeeding with a `data` list: zero matches fail with code
404 and message `"No matching record found."`; more than one match fails
with code 400 and message
`"More than one matching record found, cannot continue."`; exactly one
match without a truthy `id` field fails with code 404 (message
`"Could not find ID for record in response."`); exactly one match with a
truthy `id` returns that id. -/
theorem c2_lookup_exactly_one_match (send : Transport) (cfg : ClientConfig)
    (record_name record_type : String) (result : JSON) (ds : List JSON)
    (hok : handle_api_response
        (send "recordsFind" (recordsFindPayload cfg.token record_name record_type))
      = .ok result)
    (hdata : jsonSubscript result "data" = some (.arr ds)) :
    (ds = [] →
      (get_resource_record_id send cfg record_name record_type).1
        = .err ⟨.num 404, .str "No matching record found."⟩)
  ∧ (1 < ds.length →
      (get_resource_record_id send cfg record_name record_type).1
        = .err ⟨.num 400, .str "More than one matching record found, cannot continue."⟩)
  ∧ (∀ ffs : List (String × JSON), ds = [.obj ffs] →
       (pyTruthyOpt (JSON.lookup ffs "id") = false →
          (get_resource_record_id send cfg record_name record_type).1
            = .err ⟨.num 404, .str "Could not find ID for record in response."⟩)
     ∧ (∀ idJ, JSON.lookup ffs "id" = some idJ → idJ.truthy = true →
          (get_resource_record_id send cfg record_name record_type).1 = .ok idJ)) := by
  refine ⟨?_, ?_, ?_⟩
  · intro hds
    subst hds
    simp [get_resource_record_id, api_request, hok, hdata, pyLen]
  · intro hlen
    rcases ds with _ | ⟨d1, ds1⟩
    · simp at hlen
    · simp only [get_resource_record_id, api_request, hok, hdata, pyLen, List.length_cons]
      rw [if_pos (by simp only [List.length_cons] at hlen; omega : ds1.length + 1 > 1)]
  · intro ffs hds
    subst hds
    constructor
    · intro hid
      simp [get_resource_record_id, api_request, hok, hdata, pyLen, pyIndex0, hid]
    · intro idJ hidJ hidT
      simp [get_resource_record_id, api_request, hok, hdata, pyLen, pyIndex0,
        hidJ, pyTruthyOpt, hidT]

/-- C2 witness: the zero-match branch of the amended claim at the concrete
empty-search transport. -/
theorem c2_lookup_exactly_one_match_witness :
    (get_resource_record_id sendFindEmpty cfg0 "host.example" "A").1
      = .err ⟨.num 404, .str "No matching record found."⟩ :=
  (c2_lookup_exactly_one_match sendFindEmpty cfg0 "host.example" "A"
    (.obj [("data", .arr [])]) [] rfl rfl).1 rfl

/-- C3 counterexample: at a transport whose update response has an empty
`records` list, the update fails with code 500, but with the message
`"Update succeeded, but failed to find updated record in success response.
This should not happen."`, not the exact message
`"update succeeded but updated record not found in response"` stated by
the claim. -/
theorem c3_update_messages_counterexample :
    (update_resource_record sendUpdateEmpty cfg0 "host.example" "A" "1.2.3.4" none).1
      = .err ⟨.num 500,
          .str "Update succeeded, but failed to find updated record in success response. This should not happen."⟩
  ∧ (update_resource_record sendUpdateEmpty cfg0 "host.example" "A" "1.2.3.4" none).1
      ≠ .err ⟨.num 500, .str "update succeeded but updated record not found in response"⟩ := by
  constructor
  · rfl
  · intro h
    rw [show (update_resource_record sendUpdateEmpty cfg0 "host.example" "A" "1.2.3.4" none).1
          = .err ⟨.num 500,
              .str "Update succeeded, but failed to find updated record in success response. This should not happen."⟩
        from rfl] at h
    injection h with h1
    rw [DNSAPIException.mk.injEq] at h1
    injection h1.2 with h2
    exact absurd h2 (by decide)

/-- C3 (amended): for every update call whose record lookup resolved an id
and whose update request succeeded with a `records` list, the client keeps
exactly the entries whose `id` equals the updated id: zero matches fail
with code 500 and message `"Update succeeded, but failed to find updated
record in success response. This should not happen."`; more than one match
fails with code 500 and message `"Update succeeded, but found more than
one result in success response. This should not happen."`; exactly one
match is returned. -/
theorem c3_update_exactly_one_result (send : Transport) (cfg : ClientConfig)
    (record_name record_type record_data : String) (record_ttl : Option Int)
    (record_id : JSON) (rfs : List (String × JSON))
    (entries fl : List JSON)
    (hrid : (get_resource_record_id send cfg record_name record_type).1 = .ok record_id)
    (hupd : handle_api_response (send "recordsUpdate"
        (recordsUpdatePayload cfg record_id record_name record_type record_data record_ttl))
      = .ok (.obj rfs))
    (hrecords : (JSON.lookup rfs "records").getD (.arr []) = .arr entries)
    (hfilter : filterById entries record_id = some fl) :
    (fl = [] →
      (update_resource_record send cfg record_name record_type record_data record_ttl).1
        = .err ⟨.num 500,
            .str "Update succeeded, but failed to find updated record in success response. This should not happen."⟩)
  ∧ (1 < fl.length →
      (update_resource_record send cfg record_name record_type record_data record_ttl).1
        = .err ⟨.num 500,
            .str "Update succeeded, but found more than one result in success response. This should not happen."⟩)
  ∧ (∀ x, fl = [x] →
      (update_resource_record send cfg record_name record_type record_data record_ttl).1
        = .ok x) := by
  rcases hg : get_resource_record_id send cfg record_name record_type with ⟨r1, t1⟩
  rw [hg] at hrid
  simp only at hrid
  subst hrid
  refine ⟨?_, ?_, ?_⟩
  · intro hfl
    subst hfl
    simp [update_resource_record, api_request, hg, hupd, hrecords, hfilter]
  · intro hlen
    rcases fl with _ | ⟨x1, _ | ⟨x2, fl2⟩⟩
    · simp at hlen
    · simp at hlen
    · simp [update_resource_record, api_request, hg, hupd, hrecords, hfilter]
  · intro x hfl
    subst hfl
    simp [update_resource_record, api_request, hg, hupd, hrecords, hfilter]

/-- C3 witness: the zero-match branch of the amended claim at the concrete
empty-update-response transport. -/
theorem c3_update_exactly_one_result_witness :
    (update_resource_record sendUpdateEmpty cfg0 "host.example" "A" "1.2.3.4" none).1
      = .err ⟨.num 500,
          .str "Update succeeded, but failed to find updated record in success response. This should not happen."⟩ :=
  (c3_update_exactly_one_result sendUpdateEmpty cfg0 "host.example" "A" "1.2.3.4" none
    (.str "rid1") [("records", .arr [])] [] [] rfl rfl rfl rfl).1 rfl

/-- The record search never issues anything but its single `recordsFind`
request. -/
lemma get_resource_record_id_trace (send : Transport) (cfg : ClientConfig)
    (record_name record_type : String) :
    (get_resource_record_id send cfg record_name record_type).2
      = [("recordsFind", recordsFindPayload cfg.token record_name record_type)] := by
  simp only [get_resource_record_id, api_request]
  repeat' split
  all_goals rfl

/-- The update operation issues the lookup request alone, or the lookup
request followed by one `recordsUpdate` request built from the resolved id. -/
lemma update_resource_record_trace (send : Transport) (cfg : ClientConfig)
    (record_name record_type record_data : String) (record_ttl : Option Int) :
    (update_resource_record send cfg record_name record_type record_data record_ttl).2
      = (get_resource_record_id send cfg record_name record_type).2
  ∨ ∃ rid, (get_resource_record_id send cfg record_name record_type).1 = .ok rid ∧
      (update_resource_record send cfg record_name record_type record_data record_ttl).2
        = (get_resource_record_id send cfg record_name record_type).2
          ++ [("recordsUpdate", recordsUpdatePayload cfg rid record_name record_type record_data record_ttl)] := by
  rcases hg : get_resource_record_id send cfg record_name record_type with ⟨r1, t1⟩
  cases r1 with
  | crash => left; simp [update_resource_record, api_request, hg]
  | err e => left; simp [update_resource_record, api_request, hg]
  | ok rid =>
    right
    refine ⟨rid, rfl, ?_⟩
    simp only [update_resource_record, api_request, hg]
    repeat' split
    all_goals rfl

/-- C4: the TTL sent upstream is the caller-supplied ttl exactly when one
is supplied and is at least 60 seconds, and the configured default TTL
otherwise; 59 yields the default, 60 yields 60; and every `recordsUpdate`
request issued by `update_resource_record` carries a payload whose single
record-to-modify has exactly this effective TTL. -/
theorem c4_effective_ttl_floor :
    (∀ (t default_ttl : Int),
       effective_ttl (some t) default_ttl = if 60 ≤ t then t else default_ttl)
  ∧ (∀ default_ttl : Int, effective_ttl none default_ttl = default_ttl)
  ∧ (∀ default_ttl : Int, effective_ttl (some 59) default_ttl = default_ttl)
  ∧ (∀ default_ttl : Int, effective_ttl (some 60) default_ttl = 60)
  ∧ (∀ (cfg : ClientConfig) (rid : JSON) (record_name record_type record_data : String)
       (record_ttl : Option Int), ∃ fs : List (String × JSON),
       jsonSubscript (recordsUpdatePayload cfg rid record_name record_type record_data record_ttl)
           "recordsToModify" = some (.arr [.obj fs])
       ∧ JSON.lookup fs "ttl" = some (.num (effective_ttl record_ttl cfg.default_ttl)))
  ∧ (∀ (send : Transport) (cfg : ClientConfig)
       (record_name record_type record_data : String) (record_ttl : Option Int) (p : JSON),
       ("recordsUpdate", p)
           ∈ (update_resource_record send cfg record_name record_type record_data record_ttl).2 →
       ∃ rid, p = recordsUpdatePayload cfg rid record_name record_type record_data record_ttl) := by
  refine ⟨?_, fun _ => rfl, fun _ => rfl, fun _ => rfl, ?_, ?_⟩
  · intro t d
    simp only [effective_ttl]
    by_cases h : 60 ≤ t
    · rw [if_pos ⟨by omega, h⟩, if_pos h]
    · rw [if_neg (fun hc => h hc.2), if_neg h]
  · intro cfg rid record_name record_type record_data record_ttl
    exact ⟨[("id", rid), ("name", .str record_name), ("type", .str record_type),
      ("content", .str record_data),
      ("comments", .str "DynDNS Record - automatically managed, do not change!"),
      ("ttl", .num (effective_ttl record_ttl cfg.default_ttl))], rfl, rfl⟩
  · intro send cfg record_name record_type record_data record_ttl p hmem
    rcases update_resource_record_trace send cfg record_name record_type record_data record_ttl
      with h | ⟨rid, _, h⟩
    · rw [h, get_resource_record_id_trace] at hmem
      rw [List.mem_singleton] at hmem
      injection hmem with h1 h2
      exact absurd h1 (by decide)
    · rw [h, get_resource_record_id_trace] at hmem
      rcases List.mem_append.1 hmem with h2 | h2
      · rw [List.mem_singleton] at h2
        injection h2 with h3 h4
        exact absurd h3 (by decide)
      · rw [List.mem_singleton] at h2
        injection h2 with h3 h4
        exact ⟨rid, h4⟩

/-- C4 witness: the TTL floor at 59 and 60 with default 300, and the
payload of the one `recordsUpdate` request issued at a concrete transport. -/
theorem c4_effective_ttl_floor_witness :
    effective_ttl (some 59) 300 = 300
  ∧ effective_ttl (some 60) 300 = 60
  ∧ ∃ rid, recordsUpdatePayload cfg0 (.str "rid1") "host.example" "A" "1.2.3.4" none
      = recordsUpdatePayload cfg0 rid "host.example" "A" "1.2.3.4" none := by
  refine ⟨c4_effective_ttl_floor.2.2.1 300, c4_effective_ttl_floor.2.2.2.1 300, ?_⟩
  exact c4_effective_ttl_floor.2.2.2.2.2 sendUpdateEmpty cfg0 "host.example" "A" "1.2.3.4" none
    (recordsUpdatePayload cfg0 (.str "rid1") "host.example" "A" "1.2.3.4" none)
    (List.Mem.tail _ (List.Mem.head _))

/-! ## Claims about the handler -/

/-- A missing or empty domain short-circuits the handler with 400 and no
provider call. -/
lemma dyndns_missing_domain (v : PyValue) (send : Transport) (cfg : ClientConfig)
    (domain ipv4 ipv6 : Option String) (ttl : Option Int)
    (h : pyTruthyStrOpt domain = false) :
    dyndns v send cfg domain ipv4 ipv6 ttl
      = .resp 400 "DynDNS target domain missing." [] := by
  simp [dyndns, h]

/-- A truthy allow-list not containing the domain short-circuits the
handler with 403 and no provider call. -/
lemma dyndns_forbidden (v : PyValue) (send : Transport) (cfg : ClientConfig)
    (domain ipv4 ipv6 : Option String) (ttl : Option Int)
    (hdom : pyTruthyStrOpt domain = true)
    (ht : v.truthy = true)
    (hc : v.containsDomain (domain.getD "") = some false) :
    dyndns v send cfg domain ipv4 ipv6 ttl
      = .resp 403 "Requested DynDNS domain ist not on the allowlist." [] := by
  simp [dyndns, hdom, ht, hc]

/-- With the domain present and allowed but no address supplied, the
handler short-circuits with 400 and no provider call. -/
lemma dyndns_no_address (v : PyValue) (send : Transport) (cfg : ClientConfig)
    (domain ipv4 ipv6 : Option String) (ttl : Option Int)
    (hdom : pyTruthyStrOpt domain = true)
    (hallow : v.truthy = true → v.containsDomain (domain.getD "") = some true)
    (h4 : pyTruthyStrOpt ipv4 = false) (h6 : pyTruthyStrOpt ipv6 = false) :
    dyndns v send cfg domain ipv4 ipv6 ttl
      = .resp 400 "Neither a v4 nor a v6 address given." [] := by
  cases hv : v.truthy with
  | false => simp [dyndns, hdom, hv, h4, h6]
  | true => simp [dyndns, hdom, hv, hallow hv, h4, h6]

/-- With the domain present and allowed and at least one address supplied,
the handler runs the per-family stage. -/
lemma dyndns_runs_families (v : PyValue) (send : Transport) (cfg : ClientConfig)
    (domain ipv4 ipv6 : Option String) (ttl : Option Int)
    (hdom : pyTruthyStrOpt domain = true)
    (hallow : v.truthy = true → v.containsDomain (domain.getD "") = some true)
    (haddr : pyTruthyStrOpt ipv4 = true ∨ pyTruthyStrOpt ipv6 = true) :
    dyndns v send cfg domain ipv4 ipv6 ttl
      = runFamilies send cfg (domain.getD "") ipv4 ipv6 ttl := by
  have haddr2 : (!pyTruthyStrOpt ipv4 && !pyTruthyStrOpt ipv6) = false := by
    rcases haddr with h | h <;> simp [h]
  cases hv : v.truthy with
  | false => simp [dyndns, hdom, hv, haddr2]
  | true => simp [dyndns, hdom, hv, hallow hv, haddr2]

/-- The per-family stage never answers 403. -/
lemma runFamilies_statusOf_ne_403 (send : Transport) (cfg : ClientConfig)
    (domain : String) (ipv4 ipv6 : Option String) (ttl : Option Int) :
    (runFamilies send cfg domain ipv4 ipv6 ttl).statusOf ≠ some 403 := by
  unfold runFamilies
  repeat' split
  all_goals simp [HandlerResult.statusOf]

/-- A supplied non-empty string parameter is truthy. -/
lemma pyTruthyStrOpt_some {s : String} (h : s ≠ "") : pyTruthyStrOpt (some s) = true := by
  have he : s.isEmpty = false :=
    Bool.eq_false_iff.mpr (fun hc => h ((String.isEmpty_iff s).1 hc))
  simp [pyTruthyStrOpt, he]

/-- With both addresses supplied and validation passing, the handler
result is a pure combination of the two independent per-family wrapper
runs: the `A` outcome depends only on the `A` wrapper and the `AAAA`
outcome only on the `AAAA` wrapper. -/
lemma dyndns_both_families (v : PyValue) (send : Transport) (cfg : ClientConfig)
    (d a4 a6 : String) (ttl : Option Int)
    (hd : d ≠ "") (ha4 : a4 ≠ "") (ha6 : a6 ≠ "")
    (hallow : v.truthy = true → v.containsDomain d = some true) :
    dyndns v send cfg (some d) (some a4) (some a6) ttl =
      match update_wrapper send cfg d "A" a4 ttl with
      | (none, t1) => .crash t1
      | (some (l1, f1), t1) =>
        match update_wrapper send cfg d "AAAA" a6 ttl with
        | (none, t2) => .crash (t1 ++ t2)
        | (some (l2, f2), t2) =>
          .resp (if f1 || f2 then 400 else 200) (l1 ++ "\n" ++ l2) (t1 ++ t2) := by
  have hdt : pyTruthyStrOpt (some d) = true := pyTruthyStrOpt_some hd
  have h4t : pyTruthyStrOpt (some a4) = true := pyTruthyStrOpt_some ha4
  have h6t : pyTruthyStrOpt (some a6) = true := pyTruthyStrOpt_some ha6
  rw [dyndns_runs_families v send cfg (some d) (some a4) (some a6) ttl hdt
    (by simpa using hallow) (Or.inl h4t)]
  unfold runFamilies
  rw [h4t]
  simp only [if_true, Option.getD_some]
  rcases hw1 : update_wrapper send cfg d "A" a4 ttl with ⟨o1, t1⟩
  rcases o1 with _ | ⟨l1, f1⟩
  · rfl
  · rw [h6t]
    rfl

/-- With the allow-list check passing, the handler never answers 403. -/
lemma dyndns_pass_not_403 (v : PyValue) (send : Transport) (cfg : ClientConfig)
    (domain ipv4 ipv6 : Option String) (ttl : Option Int)
    (hdom : pyTruthyStrOpt domain = true)
    (hallow : v.truthy = true → v.containsDomain (domain.getD "") = some true) :
    (dyndns v send cfg domain ipv4 ipv6 ttl).statusOf ≠ some 403 := by
  by_cases h4 : pyTruthyStrOpt ipv4 = true
  · rw [dyndns_runs_families v send cfg domain ipv4 ipv6 ttl hdom hallow (Or.inl h4)]
    exact runFamilies_statusOf_ne_403 _ _ _ _ _ _
  · by_cases h6 : pyTruthyStrOpt ipv6 = true
    · rw [dyndns_runs_families v send cfg domain ipv4 ipv6 ttl hdom hallow (Or.inr h6)]
      exact runFamilies_statusOf_ne_403 _ _ _ _ _ _
    · rw [dyndns_no_address v send cfg domain ipv4 ipv6 ttl hdom hallow
        (Bool.eq_false_iff.mpr h4) (Bool.eq_false_iff.mpr h6)]
      simp [HandlerResult.statusOf]

/-- A constructor-accepted `allowed_domains` is falsy or a list. -/
lemma rootInit_ok_shape (v : PyValue) (hroot : rootInit v = .ok v) :
    v.truthy = false ∨ v.isList = true := by
  cases hb : v.truthy with
  | false => left; rfl
  | true =>
    right
    by_contra hl
    have hc : (v.truthy && !v.isList) = true := by
      rw [hb, Bool.eq_false_iff.mpr hl]
      rfl
    simp [rootInit, hc] at hroot

/-- C5: for every request whose domain is present, under any
constructor-accepted allow-list configuration, the response status is 403
exactly when the allow-list is a non-empty list not containing the domain;
a disabled or empty allow-list never produces a 403. -/
theorem c5_allowlist_403_iff (v : PyValue) (send : Transport) (cfg : ClientConfig)
    (domain ipv4 ipv6 : Option String) (ttl : Option Int) (d : String)
    (hroot : rootInit v = .ok v)
    (hdom : domain = some d) (hd : d ≠ "") :
    (dyndns v send cfg domain ipv4 ipv6 ttl).statusOf = some 403
      ↔ ∃ xs, v = .vList xs ∧ xs ≠ [] ∧ d ∉ xs := by
  subst hdom
  have hdt : pyTruthyStrOpt (some d) = true := pyTruthyStrOpt_some hd
  constructor
  · intro h403
    rcases rootInit_ok_shape v hroot with hft | hlist
    · exact absurd h403 (dyndns_pass_not_403 v send cfg (some d) ipv4 ipv6 ttl hdt
        (fun hc => absurd hc (by simp [hft])))
    · cases v with
      | vList xs =>
        by_cases hne : xs = []
        · subst hne
          exact absurd h403 (dyndns_pass_not_403 (.vList []) send cfg (some d) ipv4 ipv6 ttl hdt
            (fun hc => by simp [PyValue.truthy] at hc))
        · by_cases hmem : d ∈ xs
          · refine absurd h403 (dyndns_pass_not_403 (.vList xs) send cfg (some d) ipv4 ipv6 ttl hdt
              (fun _ => ?_))
            exact congrArg some (List.elem_iff.mpr hmem)
          · exact ⟨xs, rfl, hne, hmem⟩
      | vBool b => simp [PyValue.isList] at hlist
      | vStr s => simp [PyValue.isList] at hlist
      | vInt n => simp [PyValue.isList] at hlist
      | vNone => simp [PyValue.isList] at hlist
  · rintro ⟨xs, rfl, hne, hnm⟩
    have hcontains : xs.contains d = false := by
      rw [Bool.eq_false_iff]
      intro hc
      exact hnm (List.elem_iff.mp hc)
    rw [dyndns_forbidden (.vList xs) send cfg (some d) ipv4 ipv6 ttl hdt
      (by simp [PyValue.truthy, hne]) (congrArg some hcontains)]
    rfl

/-- C5 witness: a singleton allow-list not containing the requested domain
yields 403; the disabled allow-list never yields 403. -/
theorem c5_allowlist_403_iff_witness :
    (dyndns (.vList ["a.example"]) scenarioSend cfg0 (some "b.example")
        (some "1.2.3.4") none none).statusOf = some 403
  ∧ (dyndns (.vBool false) scenarioSend cfg0 (some "b.example")
        (some "1.2.3.4") none none).statusOf ≠ some 403 := by
  constructor
  · exact (c5_allowlist_403_iff (.vList ["a.example"]) scenarioSend cfg0
      (some "b.example") (some "1.2.3.4") none none "b.example" rfl rfl
      (by decide)).mpr ⟨["a.example"], rfl, by decide, by decide⟩
  · intro h
    rcases (c5_allowlist_403_iff (.vBool false) scenarioSend cfg0
      (some "b.example") (some "1.2.3.4") none none "b.example" rfl rfl
      (by decide)).mp h with ⟨xs, hxs, _, _⟩
    exact absurd hxs (by simp)

/-- C6: a request that passes the domain and allow-list checks but
supplies neither address is answered 400 with the exact body
"Neither a v4 nor a v6 address given." and issues no provider call. -/
theorem c6_no_address_400 (v : PyValue) (send : Transport) (cfg : ClientConfig)
    (domain ipv4 ipv6 : Option String) (ttl : Option Int)
    (hdom : pyTruthyStrOpt domain = true)
    (hallow : v.truthy = true → v.containsDomain (domain.getD "") = some true)
    (h4 : pyTruthyStrOpt ipv4 = false) (h6 : pyTruthyStrOpt ipv6 = false) :
    dyndns v send cfg domain ipv4 ipv6 ttl
      = .resp 400 "Neither a v4 nor a v6 address given." [] :=
  dyndns_no_address v send cfg domain ipv4 ipv6 ttl hdom hallow h4 h6

/-- C6 witness: a request with a domain, the allow-list disabled, and no
address at all. -/
theorem c6_no_address_400_witness :
    dyndns (.vBool false) scenarioSend cfg0 (some "home.example.com") none none none
      = .resp 400 "Neither a v4 nor a v6 address given." [] :=
  c6_no_address_400 (.vBool false) scenarioSend cfg0 (some "home.example.com")
    none none none rfl (fun hc => by simp [PyValue.truthy] at hc) rfl rfl

/-- C7: in the mixed scenario — both addresses supplied, the A update
succeeding, the AAAA update failing with embedded provider error 500
"internal error" — the handler answers 400 with the A success line
followed by the exact line "Failed to update AAAA record: 500 - internal
error"; and in general, with both addresses supplied and validation
passing, the outcome of each family is computed by its own wrapper run alone,
so a failure in one family neither prevents nor rolls back the other. -/
theorem c7_mixed_outcome_independent_families :
    ((dyndns (.vBool false) scenarioSend cfg0 (some "home.example.com")
        (some "203.0.113.5") (some "2001:db8::1") none).statusOf = some 400
     ∧ (dyndns (.vBool false) scenarioSend cfg0 (some "home.example.com")
        (some "203.0.113.5") (some "2001:db8::1") none).bodyOf
       = some ("Successfully updated A record for home.example.com to 203.0.113.5\n"
           ++ "Failed to update AAAA record: 500 - internal error"))
  ∧ (∀ (v : PyValue) (send : Transport) (cfg : ClientConfig) (d a4 a6 : String)
      (ttl : Option Int), d ≠ "" → a4 ≠ "" → a6 ≠ "" →
      (v.truthy = true → v.containsDomain d = some true) →
      dyndns v send cfg (some d) (some a4) (some a6) ttl =
        match update_wrapper send cfg d "A" a4 ttl with
        | (none, t1) => .crash t1
        | (some (l1, f1), t1) =>
          match update_wrapper send cfg d "AAAA" a6 ttl with
          | (none, t2) => .crash (t1 ++ t2)
          | (some (l2, f2), t2) =>
            .resp (if f1 || f2 then 400 else 200) (l1 ++ "\n" ++ l2) (t1 ++ t2)) := by
  refine ⟨⟨rfl, rfl⟩, ?_⟩
  intro v send cfg d a4 a6 ttl hd ha4 ha6 hallow
  exact dyndns_both_families v send cfg d a4 a6 ttl hd ha4 ha6 hallow

/-- C7 witness: the general decomposition applied to the concrete mixed
scenario reproduces its response. -/
theorem c7_mixed_outcome_independent_families_witness :
    dyndns (.vBool false) scenarioSend cfg0 (some "home.example.com")
        (some "203.0.113.5") (some "2001:db8::1") none =
      match update_wrapper scenarioSend cfg0 "home.example.com" "A" "203.0.113.5" none with
      | (none, t1) => .crash t1
      | (some (l1, f1), t1) =>
        match update_wrapper scenarioSend cfg0 "home.example.com" "AAAA" "2001:db8::1" none with
        | (none, t2) => .crash (t1 ++ t2)
        | (some (l2, f2), t2) =>
          .resp (if f1 || f2 then 400 else 200) (l1 ++ "\n" ++ l2) (t1 ++ t2) :=
  c7_mixed_outcome_independent_families.2 (.vBool false) scenarioSend cfg0
    "home.example.com" "203.0.113.5" "2001:db8::1" none (by decide) (by decide) (by decide)
    (fun hc => by simp [PyValue.truthy] at hc)

/-- C8: a request failing any of the three local validation checks is
answered with a client-facing 4xx and an empty provider-call trace: the
DNS client is never invoked on a validation-failure path. -/
theorem c8_validation_failure_no_provider_call (v : PyValue) (send : Transport)
    (cfg : ClientConfig) (domain ipv4 ipv6 : Option String) (ttl : Option Int) :
    (pyTruthyStrOpt domain = false →
       dyndns v send cfg domain ipv4 ipv6 ttl
         = .resp 400 "DynDNS target domain missing." [])
  ∧ (pyTruthyStrOpt domain = true → v.truthy = true →
       v.containsDomain (domain.getD "") = some false →
       dyndns v send cfg domain ipv4 ipv6 ttl
         = .resp 403 "Requested DynDNS domain ist not on the allowlist." [])
  ∧ (pyTruthyStrOpt domain = true →
       (v.truthy = true → v.containsDomain (domain.getD "") = some true) →
       pyTruthyStrOpt ipv4 = false → pyTruthyStrOpt ipv6 = false →
       dyndns v send cfg domain ipv4 ipv6 ttl
         = .resp 400 "Neither a v4 nor a v6 address given." []) :=
  ⟨fun h => dyndns_missing_domain v send cfg domain ipv4 ipv6 ttl h,
   fun hdom ht hc => dyndns_forbidden v send cfg domain ipv4 ipv6 ttl hdom ht hc,
   fun hdom hallow h4 h6 => dyndns_no_address v send cfg domain ipv4 ipv6 ttl hdom hallow h4 h6⟩

/-- C8 witness: the three validation failures at concrete requests, each
issuing no provider call. -/
theorem c8_validation_failure_no_provider_call_witness :
    dyndns (.vBool false) scenarioSend cfg0 none (some "1.2.3.4") none none
      = .resp 400 "DynDNS target domain missing." []
  ∧ dyndns (.vList ["a.example"]) scenarioSend cfg0 (some "b.example")
      (some "1.2.3.4") none none
      = .resp 403 "Requested DynDNS domain ist not on the allowlist." []
  ∧ dyndns (.vBool false) scenarioSend cfg0 (some "home.example.com") none none none
      = .resp 400 "Neither a v4 nor a v6 address given." [] :=
  ⟨(c8_validation_failure_no_provider_call (.vBool false) scenarioSend cfg0
      none (some "1.2.3.4") none none).1 rfl,
   (c8_validation_failure_no_provider_call (.vList ["a.example"]) scenarioSend cfg0
      (some "b.example") (some "1.2.3.4") none none).2.1 rfl rfl rfl,
   (c8_validation_failure_no_provider_call (.vBool false) scenarioSend cfg0
      (some "home.example.com") none none none).2.2 rfl
      (fun hc => by simp [PyValue.truthy] at hc) rfl rfl⟩

/-- C9: the handler constructor raises exactly when the configured
`allowed_domains` value is truthy and not a list; lists and falsy
sentinels are accepted. -/
theorem c9_constructor_rejects_truthy_nonlist (v : PyValue) :
    (∃ msg, rootInit v = .error msg) ↔ (v.truthy = true ∧ v.isList = false) := by
  constructor
  · rintro ⟨msg, h⟩
    by_cases hc : (v.truthy && !v.isList) = true
    · rw [Bool.and_eq_true] at hc
      exact ⟨hc.1, by simpa using hc.2⟩
    · simp [rootInit, hc] at h
  · rintro ⟨h1, h2⟩
    refine ⟨"allowed_domains has to be a list or False to allow all domains.", ?_⟩
    simp [rootInit, h1, h2]

/-- C10: whenever both addresses are supplied and the per-family stage is
reached, the body lists the A outcome line first and the AAAA outcome line
second, joined by a single newline, whatever the outcome flags of the two
families are. -/
theorem c10_body_orders_a_before_aaaa (v : PyValue) (send : Transport)
    (cfg : ClientConfig) (d a4 a6 : String) (ttl : Option Int)
    (l1 l2 : String) (f1 f2 : Bool) (t1 t2 : List ApiCall)
    (hd : d ≠ "") (ha4 : a4 ≠ "") (ha6 : a6 ≠ "")
    (hallow : v.truthy = true → v.containsDomain d = some true)
    (hw1 : update_wrapper send cfg d "A" a4 ttl = (some (l1, f1), t1))
    (hw2 : update_wrapper send cfg d "AAAA" a6 ttl = (some (l2, f2), t2)) :
    dyndns v send cfg (some d) (some a4) (some a6) ttl
      = .resp (if f1 || f2 then 400 else 200) (l1 ++ "\n" ++ l2) (t1 ++ t2) := by
  rw [dyndns_both_families v send cfg d a4 a6 ttl hd ha4 ha6 hallow, hw1, hw2]

/-- C10 witness: the ordering at the concrete mixed scenario, where the A
line precedes the AAAA line. -/
theorem c10_body_orders_a_before_aaaa_witness :
    dyndns (.vBool false) scenarioSend cfg0 (some "home.example.com")
        (some "203.0.113.5") (some "2001:db8::1") none
      = .resp (if false || true then 400 else 200)
          ("Successfully updated A record for home.example.com to 203.0.113.5"
            ++ "\n" ++ "Failed to update AAAA record: 500 - internal error")
          ((update_wrapper scenarioSend cfg0 "home.example.com" "A" "203.0.113.5" none).2
            ++ (update_wrapper scenarioSend cfg0 "home.example.com" "AAAA" "2001:db8::1" none).2) :=
  c10_body_orders_a_before_aaaa (.vBool false) scenarioSend cfg0
    "home.example.com" "203.0.113.5" "2001:db8::1" none
    "Successfully updated A record for home.example.com to 203.0.113.5" 
    "Failed to update AAAA record: 500 - internal error" false true
    (update_wrapper scenarioSend cfg0 "home.example.com" "A" "203.0.113.5" none).2
    (update_wrapper scenarioSend cfg0 "home.example.com" "AAAA" "2001:db8::1" none).2
    (by decide) (by decide) (by decide)
    (fun hc => by simp [PyValue.truthy] at hc) rfl rfl
